import Mathlib

/-!
Shallow embedding of the Taksichi-Amaki taxi-order bot (`src/bot.py`).

The bot keeps a single JSON document (orders / users / settings), mutated
in place by handlers.  We embed the document as `StateDoc`, the reminder
job queue as a list of job names, and each handler as a pure function
from the pre-state (plus the inbound event data) to the post-state and
the visible replies.  External transport effects (sending a message)
are parameterized by the fresh message id (`newMid`) and a success flag
(`sendOk`) standing for the try/except around the send.
-/

namespace Taksichi

/-- ASCII apostrophe character, as a string. -/
def apos : String := String.singleton (Char.ofNat 39)

/-- Left single quotation mark (U+2018), as used in the source's Uzbek text. -/
def lsq : String := String.singleton (Char.ofNat 8216)

/-- Python `s.strip()`: drop whitespace from both ends. -/
def pyStrip (s : String) : String :=
  String.mk (((s.data.dropWhile Char.isWhitespace).reverse.dropWhile
    Char.isWhitespace).reverse)

/-- Python `s.lower()`. -/
def pyLower (s : String) : String := String.mk (s.data.map Char.toLower)

/-- Python `s.startswith(p)`. -/
def pyStartsWith (s p : String) : Bool := p.data.isPrefixOf s.data

/-- Python string falsiness (the empty string is falsy). -/
def pyEmpty (s : String) : Bool := s.data.isEmpty

/-- Python `a or b` on strings: `b` when `a` is empty (falsy), else `a`. -/
def strOr (a b : String) : String := if a = "" then b else a

/-- Python `opt or d` on an optional int: `d` when the value is `None` or `0`. -/
def pyIntOr (v : Option Int) (d : Int) : Int :=
  match v with
  | none => d
  | some x => if x = 0 then d else x

/-- Python falsiness of an optional string (`None` or empty). -/
def pyFalsyOpt (v : Option String) : Bool :=
  match v with
  | none => true
  | some s => pyEmpty s

/-- The `Order` dataclass of `bot.py` (coordinates modelled as rationals). -/
structure Order where
  order_id : String
  user_id : Int
  user_name : String
  user_username : String
  pickup_lat : Option Rat := none
  pickup_lon : Option Rat := none
  pickup_text : String := ""
  drop_lat : Option Rat := none
  drop_lon : Option Rat := none
  drop_text : String := ""
  people : String := ""
  when : String := ""
  phone : String := ""
  username_confirm : String := ""
  price_text : String := "Kelishilgan narxda"
  status : String := "pending"
  driver_id : Option Int := none
  driver_name : String := ""
  driver_username : String := ""
  group_message_id : Option Int := none
deriving DecidableEq, Repr

/-- Per-user conversation state stored under `users[str(uid)]`. -/
structure UserState where
  step : String := ""
  order_id : Option String := none
deriving DecidableEq, Repr

/-- The persisted `settings` map. -/
structure Settings where
  remind_every_sec : Option Int := none
  default_price_text : Option String := none
deriving DecidableEq, Repr

/-- The whole persisted document (`STATE`): orders, users, settings. -/
structure StateDoc where
  orders : List (String × Order) := []
  users : List (String × UserState) := []
  settings : Settings := {}
deriving DecidableEq, Repr

/-- Dictionary lookup on an association list (Python `d.get(k)`). -/
def lookupA {α : Type} (l : List (String × α)) (k : String) : Option α :=
  (l.find? (fun p => p.1 == k)).map (fun p => p.2)

/-- Dictionary assignment `d[k] = v`: replace in place, or append. -/
def setA {α : Type} (l : List (String × α)) (k : String) (v : α) : List (String × α) :=
  if l.any (fun p => p.1 == k) then
    l.map (fun p => if p.1 == k then (k, v) else p)
  else
    l ++ [(k, v)]

/-- The `load_order` helper: fetch an order by id from the document. -/
def load_order (st : StateDoc) (order_id : String) : Option Order :=
  lookupA st.orders order_id

/-- The `store_order` / `update_order` helper: write an order back. -/
def store_order (st : StateDoc) (o : Order) : StateDoc :=
  { st with orders := setA st.orders o.order_id o }

/-- The `get_user_step` helper. -/
def get_user_step (st : StateDoc) (uid : Int) : String :=
  match lookupA st.users (toString uid) with
  | some u => u.step
  | none => ""

/-- The `get_user_order_id` helper. -/
def get_user_order_id (st : StateDoc) (uid : Int) : Option String :=
  match lookupA st.users (toString uid) with
  | some u => u.order_id
  | none => none

/-- The `set_user_step` helper: sets `step`, and sets `order_id` only when
one is supplied (Python skips the assignment when it is `None`). -/
def set_user_step (st : StateDoc) (uid : Int) (step : String)
    (order_id : Option String) : StateDoc :=
  let key := toString uid
  let old := (lookupA st.users key).getD {}
  let u1 : UserState := { old with step := step }
  let u2 : UserState :=
    match order_id with
    | some oid => { u1 with order_id := some oid }
    | none => u1
  { st with users := setA st.users key u2 }

/-- The `users[str(uid)].pop("order_id", None)` idiom (after a `setdefault`). -/
def pop_user_order (st : StateDoc) (uid : Int) : StateDoc :=
  let key := toString uid
  let old := (lookupA st.users key).getD {}
  { st with users := setA st.users key { old with order_id := none } }

/-- The `has_active_order` helper. -/
def has_active_order (st : StateDoc) (uid : Int) : Bool :=
  st.orders.any (fun p =>
    p.2.user_id == uid &&
      (p.2.status == "pending" || p.2.status == "posted" || p.2.status == "assigned"))

/-- The `get_default_price_text` helper with its double fallback. -/
def get_default_price_text (st : StateDoc) : String :=
  strOr (pyStrip (strOr (st.settings.default_price_text.getD "") "Kelishilgan narxda"))
    "Kelishilgan narxda"

/-- The `is_admin` helper: membership in the (possibly empty) admin list. -/
def is_admin (admins : List Int) (uid : Int) : Bool :=
  admins.contains uid

/-- The `remind_job_name` helper. -/
def remind_job_name (order_id : String) : String := "remind:" ++ order_id

/-- The `delete_job` helper: remove every job with the given name. -/
def delete_job (jobs : List String) (name : String) : List String :=
  jobs.filter (fun n => n != name)

/-- The `schedule_reminder` helper: delete any job of that name, then add one. -/
def schedule_reminder (jobs : List String) (order_id : String) : List String :=
  remind_job_name order_id :: delete_job jobs (remind_job_name order_id)

/-- The `maps_link` helper (float formatting abstracted to `toString`). -/
def maps_link (lat lon : Rat) : String :=
  "https://maps.google.com/?q=" ++ toString lat ++ "," ++ toString lon

/-- The `order_card_text` pure rendering function. -/
def order_card_text (o : Order) : String :=
  let pickup :=
    match o.pickup_lat, o.pickup_lon with
    | some lat, some lon => o.pickup_text ++ "\n📍 Pickup: " ++ maps_link lat lon
    | _, _ => o.pickup_text
  let drop :=
    match o.drop_lat, o.drop_lon with
    | some lat, some lon => o.drop_text ++ "\n🏁 Dropoff: " ++ maps_link lat lon
    | _, _ => o.drop_text
  let contact_lines :=
    (if o.phone ≠ "" then ["📞 Telefon: " ++ o.phone] else []) ++
    (if o.username_confirm ≠ "" then ["👤 Telegram: " ++ o.username_confirm] else [])
  let contact_block :=
    if contact_lines.isEmpty then "👤 Aloqa: (kiritilmagan)"
    else String.intercalate "\n" contact_lines
  let status_line :=
    if o.status = "posted" then "Holat: ⏳ Haydovchi kutilmoqda"
    else if o.status = "assigned" then "Holat: ✅ Haydovchi biriktirildi"
    else if o.status = "cancelled" then "Holat: ❌ Bekor qilindi"
    else if o.status = "pending" then "Holat: 📝 To‘ldirilmoqda"
    else "Holat: " ++ o.status
  let driver_line :=
    if o.status = "assigned" then
      "\n🚖 Haydovchi: " ++ strOr o.driver_username (strOr o.driver_name "Haydovchi")
    else ""
  let price_line := "💰 Narx: " ++ strOr o.price_text "Kelishilgan narxda"
  "🚕 TAKSI BUYURTMA\n\n" ++
  "🆔 ID: " ++ o.order_id ++ "\n\n" ++
  "📍 Qayerdan:\n" ++ pickup ++ "\n\n" ++
  "🏁 Qayerga:\n" ++ drop ++ "\n\n" ++
  "👥 Odamlar: " ++ o.people ++ "\n" ++
  "⏰ Vaqt: " ++ o.when ++ "\n" ++
  price_line ++ "\n\n" ++
  contact_block ++ "\n\n" ++
  status_line ++
  driver_line

/-- One inline keyboard button: label and callback data. -/
structure Button where
  text : String
  callback_data : String
deriving DecidableEq, Repr

/-- The `order_keyboard` pure rendering function. -/
def order_keyboard (o : Order) : List (List Button) :=
  if o.status = "posted" then
    [[⟨"✅ Qabul qilish", "accept:" ++ o.order_id⟩],
     [⟨"❌ Bekor qilish (mijoz)", "cancel:" ++ o.order_id⟩]]
  else if o.status = "assigned" then
    [[⟨"🔄 Haydovchi bekor qildi (qayta e’lon)", "driver_cancel:" ++ o.order_id⟩],
     [⟨"✅ Band", "noop:" ++ o.order_id⟩]]
  else if o.status = "cancelled" then
    [[⟨"❌ Bekor qilingan", "noop:" ++ o.order_id⟩]]
  else []

/-- A Telegram user as seen on a callback (`q.from_user`). -/
structure TgUser where
  id : Int
  full_name : String := ""
  username : Option String := none
deriving DecidableEq, Repr

/-- The `@`-prefixed driver username, empty without a username
(Python: `f"@..." if q.from_user.username else ""`). -/
def at_username (u : TgUser) : String :=
  match u.username with
  | some s => if pyEmpty s then "" else "@" ++ s
  | none => ""

/-- An inbound private message: optional text, location, contact phone. -/
structure Msg where
  text : Option String := none
  location : Option (Rat × Rat) := none
  contact : Option String := none
deriving DecidableEq, Repr

/-- Python `msg.text and msg.text.strip()` as a truthy value: the stripped
text when the raw text and its strip are both non-empty, else `none`. -/
def pyTextStrip (m : Msg) : Option String :=
  match m.text with
  | none => none
  | some t =>
    if pyEmpty t then none
    else if pyEmpty (pyStrip t) then none
    else some (pyStrip t)

/-- Python `msg.contact and msg.contact.phone_number` truthiness. -/
def contactPhone (m : Msg) : Option String :=
  match m.contact with
  | none => none
  | some p => if pyEmpty p then none else some p

/-- Split a character list at the first colon: prefix and remainder. -/
def splitCharsAtColon : List Char → Option (List Char × List Char)
  | [] => none
  | c :: cs =>
    if c = ':' then some ([], cs)
    else (splitCharsAtColon cs).map (fun p => (c :: p.1, p.2))

/-- Python `data.split(":", 1)` when `":" in data`, else `none`: the part
before the first colon and everything after it. -/
def splitColon (s : String) : Option (String × String) :=
  (splitCharsAtColon s.data).map (fun p => (String.mk p.1, String.mk p.2))

/-- Result of a group-button callback: post-state, remaining jobs,
the textual answer (with its alert flag) if any beyond the bare ack,
direct-message notifications sent, and whether the card was reposted. -/
structure CbResult where
  store : StateDoc
  jobs : List String
  reply : Option (String × Bool) := none
  notices : List (Int × String) := []
  reposted : Bool := false
deriving DecidableEq, Repr

/-- The order as mutated by the accept branch: status `assigned` and the
presser bound as driver. -/
def accepted_order (o : Order) (u : TgUser) : Order :=
  { o with
    status := "assigned"
    driver_id := some u.id
    driver_name := u.full_name
    driver_username := at_username u }

/-- The private notification sent to the requester on driver accept. -/
def accept_notice (o : Order) : String :=
  "✅ Haydovchi topildi!\n🚖 Haydovchi: " ++
    strOr o.driver_username (strOr o.driver_name "Haydovchi") ++
    "\n\nAloqa uchun haydovchiga yozing."

/-- The `on_callback` group-button handler.  `chat_ok`/`topic_ok` stand
for the allowed-chat and topic-thread guards; `newMid`/`sendOk` stand
for the repost transport call in the `driver_cancel` branch. -/
def on_callback (admins : List Int) (st : StateDoc) (jobs : List String)
    (u : TgUser) (data : String) (chat_ok topic_ok : Bool)
    (newMid : Int) (sendOk : Bool) : CbResult :=
  if !chat_ok || !topic_ok then { store := st, jobs := jobs }
  else
    match splitColon data with
    | none => { store := st, jobs := jobs }
    | some (action, order_id) =>
      match load_order st order_id with
      | none => { store := st, jobs := jobs, reply := some ("Buyurtma topilmadi.", true) }
      | some o =>
        if action = "cancel" then
          if u.id ≠ o.user_id then
            { store := st, jobs := jobs,
              reply := some ("Bekor qilish faqat buyurtmachiga mumkin.", true) }
          else if o.status = "cancelled" then
            { store := st, jobs := jobs,
              reply := some ("Allaqachon bekor qilingan.", true) }
          else if o.status = "assigned" then
            { store := st, jobs := jobs,
              reply := some ("Haydovchi biriktirilgan. Bekor qilib bo‘lmaydi.", true) }
          else
            let o2 := { o with status := "cancelled" }
            { store := store_order st o2,
              jobs := delete_job jobs (remind_job_name order_id),
              reply := some ("Bekor qilindi.", false),
              notices := [(o.user_id, "❌ Buyurtma bekor qilindi.")] }
        else if action = "accept" then
          if o.status ≠ "posted" then
            { store := st, jobs := jobs,
              reply := some ("Bu buyurtma endi aktiv emas.", true) }
          else
            let o2 := { o with
              status := "assigned"
              driver_id := some u.id
              driver_name := u.full_name
              driver_username := at_username u }
            { store := store_order st o2,
              jobs := delete_job jobs (remind_job_name order_id),
              reply := some ("Qabul qilindi ✅", false),
              notices := [(o.user_id, accept_notice o2)] }
        else if action = "driver_cancel" then
          if !(u.id == pyIntOr o.driver_id (-1) || is_admin admins u.id) then
            { store := st, jobs := jobs,
              reply := some ("Bu tugma faqat haydovchi yoki admin uchun.", true) }
          else if o.status ≠ "assigned" then
            { store := st, jobs := jobs,
              reply := some ("Bu order hozir assigned emas.", true) }
          else
            let o2 := { o with
              status := "posted"
              driver_id := none
              driver_name := ""
              driver_username := "" }
            let st2 := store_order st o2
            if !sendOk then
              { store := st2, jobs := jobs,
                reply := some ("Qayta e’lon qilishda xatolik.", true) }
            else
              let o3 := { o2 with group_message_id := some newMid }
              { store := store_order st2 o3,
                jobs := schedule_reminder jobs order_id,
                reply := some ("Qayta e’lon qilindi ✅", false),
                notices := [(o.user_id,
                  "⚠️ Haydovchi buyurtmani bekor qildi. Buyurtma qayta e’lon qilindi, haydovchi kutilmoqda.")],
                reposted := true }
        else
          { store := st, jobs := jobs }

/-- Result of a reminder tick: post-state, remaining jobs, repost flag. -/
structure TickResult where
  store : StateDoc
  jobs : List String
  reposted : Bool := false
deriving DecidableEq, Repr

/-- The `reminder_tick` job callback.  `odata` is `job.data.get("order_id")`;
`newMid`/`sendOk` stand for the repost transport call. -/
def reminder_tick (st : StateDoc) (jobs : List String) (odata : Option String)
    (newMid : Int) (sendOk : Bool) : TickResult :=
  match odata with
  | none => { store := st, jobs := jobs }
  | some order_id =>
    if pyEmpty order_id then { store := st, jobs := jobs }
    else
      match load_order st order_id with
      | none => { store := st, jobs := delete_job jobs (remind_job_name order_id) }
      | some o =>
        if o.status ≠ "posted" then
          { store := st, jobs := delete_job jobs (remind_job_name order_id) }
        else if sendOk then
          { store := store_order st { o with group_message_id := some newMid },
            jobs := jobs, reposted := true }
        else
          { store := st, jobs := jobs }

/-- Result of a private-message or command handler: post-state, jobs,
and the reply text sent to the user (if any). -/
structure RouterResult where
  store : StateDoc
  jobs : List String
  reply : Option String := none
deriving DecidableEq, Repr

/-- The `/cancel` command handler (`cancel_cmd`), private-chat branch. -/
def cancel_cmd (st : StateDoc) (uid : Int) : StateDoc × String :=
  let oid := get_user_order_id st uid
  let step := get_user_step st uid
  if pyEmpty step || pyFalsyOpt oid then
    (st, "Bekor qilinadigan jarayon yo‘q.")
  else
    let st1 :=
      match load_order st (oid.getD "") with
      | some o =>
        if o.status = "pending" then store_order st { o with status := "cancelled" }
        else st
      | none => st
    let st2 := pop_user_order (set_user_step st1 uid "" none) uid
    (st2, "Jarayon bekor qilindi.")

/-- The `/taksi` command handler (`taxi_cmd`), private-chat branch.
`oid` stands for the fresh time-based order id. -/
def taxi_cmd_private (st : StateDoc) (uid : Int) (oid : String)
    (name username : String) : StateDoc × String :=
  if has_active_order st uid then
    (st, "Sizda aktiv buyurtma bor. Avval uni yakunlang yoki /cancel qiling.")
  else
    let o : Order := {
      order_id := oid
      user_id := uid
      user_name := strOr name "User"
      user_username := strOr username ""
      username_confirm := strOr username ""
      price_text := get_default_price_text st
      status := "pending" }
    let st1 := set_user_step (store_order st o) uid "pickup_location" (some oid)
    (st1, "📍 Qayerdasiz?\nLokatsiyani yuboring.")

/-- Python `msg.text and msg.text.strip() == "⛔ Bekor qilish"` truthiness. -/
def is_cancel_text (m : Msg) : Bool :=
  match m.text with
  | some t => !pyEmpty t && pyStrip t == "⛔ Bekor qilish"
  | none => false

/-- The list of "no handle" phrases accepted at the `username_confirm`
step (compared against the lower-cased stripped input). -/
def yoq_phrases : List String :=
  ["yoq", "yo" ++ apos ++ "q", "yo" ++ lsq ++ "q", "yoq.", "yo" ++ apos ++ "q."]

/-- The `pickup_location` step block of `private_router`. -/
def step_pickup_location (st : StateDoc) (jobs : List String) (uid : Int)
    (oid : String) (o : Order) (m : Msg) : RouterResult :=
  match m.location with
  | some (lat, lon) =>
    let o2 := { o with
      pickup_lat := some lat
      pickup_lon := some lon
      pickup_text := "Lokatsiya yuborildi" }
    { store := set_user_step (store_order st o2) uid "pickup_text" (some oid),
      jobs := jobs,
      reply := some "Pickup joyni qisqa yozing (misol: Masjid Nabaviy, Gate 25):" }
  | none =>
    { store := st, jobs := jobs, reply := some "Iltimos, lokatsiya yuboring." }

/-- The `pickup_text` step block of `private_router`. -/
def step_pickup_text (st : StateDoc) (jobs : List String) (uid : Int)
    (oid : String) (o : Order) (m : Msg) : RouterResult :=
  match pyTextStrip m with
  | some t =>
    { store := set_user_step (store_order st { o with pickup_text := t })
        uid "drop_choice" (some oid),
      jobs := jobs,
      reply := some "🏁 Qayerga borasiz?\nLokatsiya yuborsangiz ham bo‘ladi, yoki matn bilan yozing." }
  | none =>
    { store := st, jobs := jobs, reply := some "Pickup joyni matn bilan yozing." }

/-- The `drop_choice` step block of `private_router`. -/
def step_drop_choice (st : StateDoc) (jobs : List String) (uid : Int)
    (oid : String) (o : Order) (m : Msg) : RouterResult :=
  match m.location with
  | some (lat, lon) =>
    let o2 := { o with
      drop_lat := some lat
      drop_lon := some lon
      drop_text := "Lokatsiya yuborildi" }
    { store := set_user_step (store_order st o2) uid "drop_text" (some oid),
      jobs := jobs,
      reply := some "Dropoff joyni qisqa yozing (misol: Madina Airport):" }
  | none =>
    match pyTextStrip m with
    | some t =>
      { store := set_user_step (store_order st { o with drop_text := t })
          uid "people" (some oid),
        jobs := jobs, reply := some "👥 Nechta odam?" }
    | none =>
      { store := st, jobs := jobs,
        reply := some "Dropoff uchun lokatsiya yuboring yoki matn yozing." }

/-- The `drop_text` step block of `private_router`. -/
def step_drop_text (st : StateDoc) (jobs : List String) (uid : Int)
    (oid : String) (o : Order) (m : Msg) : RouterResult :=
  match pyTextStrip m with
  | some t =>
    { store := set_user_step (store_order st { o with drop_text := t })
        uid "people" (some oid),
      jobs := jobs, reply := some "👥 Nechta odam?" }
  | none =>
    { store := st, jobs := jobs, reply := some "Dropoff joyni matn bilan yozing." }

/-- The `people` step block of `private_router`. -/
def step_people (st : StateDoc) (jobs : List String) (uid : Int)
    (oid : String) (o : Order) (m : Msg) : RouterResult :=
  match pyTextStrip m with
  | some t =>
    if t = "1" ∨ t = "2" ∨ t = "3" ∨ t = "4" ∨ t = "5+" then
      { store := set_user_step (store_order st { o with people := t })
          uid "when" (some oid),
        jobs := jobs, reply := some "⏰ Qachon?" }
    else
      { store := st, jobs := jobs,
        reply := some "Iltimos, tugmalardan birini tanlang." }
  | none =>
    { store := st, jobs := jobs,
      reply := some "Iltimos, tugmalardan birini tanlang." }

/-- The `when` step block of `private_router`. -/
def step_when (st : StateDoc) (jobs : List String) (uid : Int)
    (oid : String) (o : Order) (m : Msg) : RouterResult :=
  match pyTextStrip m with
  | some t =>
    if t = "Hozir" then
      { store := set_user_step (store_order st { o with when := "Hozir" })
          uid "phone" (some oid),
        jobs := jobs,
        reply := some "📞 Telefon raqamni yuboring (yoki o‘tkazib yuboring):" }
    else if t = "Vaqt yozaman" then
      { store := set_user_step st uid "when_text" (some oid),
        jobs := jobs, reply := some "Vaqtni yozing (misol: 18:30):" }
    else
      { store := st, jobs := jobs, reply := some "Iltimos, tugmalardan tanlang." }
  | none =>
    { store := st, jobs := jobs, reply := some "Iltimos, tugmalardan tanlang." }

/-- The `when_text` step block of `private_router`. -/
def step_when_text (st : StateDoc) (jobs : List String) (uid : Int)
    (oid : String) (o : Order) (m : Msg) : RouterResult :=
  match pyTextStrip m with
  | some t =>
    { store := set_user_step (store_order st { o with when := t })
        uid "phone" (some oid),
      jobs := jobs,
      reply := some "📞 Telefon raqamni yuboring (yoki o‘tkazib yuboring):" }
  | none =>
    { store := st, jobs := jobs,
      reply := some "Vaqtni matn bilan yozing (misol: 18:30)." }

/-- The `phone` step block of `private_router`. -/
def step_phone (st : StateDoc) (jobs : List String) (uid : Int)
    (oid : String) (o : Order) (m : Msg) : RouterResult :=
  match contactPhone m with
  | some p =>
    { store := set_user_step (store_order st { o with phone := p })
        uid "username_confirm" (some oid),
      jobs := jobs,
      reply := some "Telegram username’ni yozing (misol: @aliatt0r). Agar yo‘q bo‘lsa: yo‘q" }
  | none =>
    match pyTextStrip m with
    | some t =>
      if t = "⏭ O‘tkazib yuborish" then
        { store := set_user_step (store_order st { o with phone := "" })
            uid "username_confirm" (some oid),
          jobs := jobs,
          reply := some "Telegram username’ni yozing (misol: @aliatt0r). Agar yo‘q bo‘lsa: yo‘q" }
      else
        { store := set_user_step (store_order st { o with phone := t })
            uid "username_confirm" (some oid),
          jobs := jobs,
          reply := some "Telegram username’ni yozing (misol: @aliatt0r). Agar yo‘q bo‘lsa: yo‘q" }
    | none =>
      { store := st, jobs := jobs,
        reply := some "Telefon raqam yuboring yoki o‘tkazib yuboring." }

/-- The `username_confirm` (terminal) step block of `private_router`:
normalize the handle, flip the status to `posted`, post the card
(`newMid`/`sendOk`), schedule the reminder, clear the conversation. -/
def step_username_confirm (st : StateDoc) (jobs : List String) (uid : Int)
    (oid : String) (o : Order) (m : Msg) (newMid : Int) (sendOk : Bool) : RouterResult :=
  match pyTextStrip m with
  | some txt =>
    let uc :=
      if yoq_phrases.contains (pyLower txt) then ""
      else if pyStartsWith txt "@" then txt else "@" ++ txt
    let o1 := { o with username_confirm := uc }
    let st1 := store_order st o1
    let o2 := { o1 with status := "posted" }
    let st2 := store_order st1 o2
    if !sendOk then
      { store := set_user_step st2 uid "" none, jobs := jobs,
        reply := some "Xatolik: buyurtmani guruhga yuborib bo‘lmadi. Admin bilan bog‘laning." }
    else
      let o3 := { o2 with group_message_id := some newMid }
      let st3 := store_order st2 o3
      { store := pop_user_order (set_user_step st3 uid "" none) uid,
        jobs := schedule_reminder jobs oid,
        reply := some "✅ Buyurtmangiz taksi bo‘limiga yuborildi.\nHaydovchi topilishi bilan sizga xabar beraman." }
  | none =>
    { store := st, jobs := jobs,
      reply := some ("Username yozing (misol: @aliatt0r) yoki " ++ apos ++ "yo‘q" ++ apos ++ " deb yozing.") }

/-- The `private_router` message handler, for a user whose conversation
state drives the intake steps: the prologue (step and order lookup, the
distinguished cancel token) followed by the step dispatch.
`newMid`/`sendOk` stand for the group post at the terminal step. -/
def private_router (st : StateDoc) (jobs : List String) (uid : Int) (m : Msg)
    (newMid : Int) (sendOk : Bool) : RouterResult :=
  let step := get_user_step st uid
  let oid? := get_user_order_id st uid
  if pyEmpty step || pyFalsyOpt oid? then { store := st, jobs := jobs }
  else
    let oid := oid?.getD ""
    match load_order st oid with
    | none => { store := set_user_step st uid "" none, jobs := jobs }
    | some o =>
      if is_cancel_text m then
        let r := cancel_cmd st uid
        { store := r.1, jobs := jobs, reply := some r.2 }
      else if step = "pickup_location" then step_pickup_location st jobs uid oid o m
      else if step = "pickup_text" then step_pickup_text st jobs uid oid o m
      else if step = "drop_choice" then step_drop_choice st jobs uid oid o m
      else if step = "drop_text" then step_drop_text st jobs uid oid o m
      else if step = "people" then step_people st jobs uid oid o m
      else if step = "when" then step_when st jobs uid oid o m
      else if step = "when_text" then step_when_text st jobs uid oid o m
      else if step = "phone" then step_phone st jobs uid oid o m
      else if step = "username_confirm" then
        step_username_confirm st jobs uid oid o m newMid sendOk
      else
        { store := st, jobs := jobs }

/-- Whether a conversation step's branch accepts the given message:
the condition under which the branch mutates the order and advances the
step, as opposed to falling through to the re-prompt reply. -/
def step_accepts (step : String) (m : Msg) : Bool :=
  if step = "pickup_location" then m.location.isSome
  else if step = "pickup_text" then (pyTextStrip m).isSome
  else if step = "drop_choice" then m.location.isSome || (pyTextStrip m).isSome
  else if step = "drop_text" then (pyTextStrip m).isSome
  else if step = "people" then
    match pyTextStrip m with
    | some t => decide (t = "1" ∨ t = "2" ∨ t = "3" ∨ t = "4" ∨ t = "5+")
    | none => false
  else if step = "when" then
    match pyTextStrip m with
    | some t => decide (t = "Hozir" ∨ t = "Vaqt yozaman")
    | none => false
  else if step = "when_text" then (pyTextStrip m).isSome
  else if step = "phone" then (contactPhone m).isSome || (pyTextStrip m).isSome
  else if step = "username_confirm" then (pyTextStrip m).isSome
  else false

/-- The `adm:cancel:<id>` branch of `admin_callback`: cancel any order. -/
def adm_cancel (st : StateDoc) (jobs : List String) (order_id : String) :
    StateDoc × List String × String :=
  match load_order st order_id with
  | none => (st, jobs, "Order topilmadi.")
  | some o =>
    (store_order st { o with status := "cancelled" },
     delete_job jobs (remind_job_name order_id),
     "✅ Admin buyurtmani bekor qildi.")

/-- The `adm:repost:<id>` branch of `admin_callback`: repost a posted order.
`newMid`/`sendOk` stand for the repost transport call; the reminder is
rescheduled even when the repost raised. -/
def adm_repost (st : StateDoc) (jobs : List String) (order_id : String)
    (newMid : Int) (sendOk : Bool) : StateDoc × List String × String :=
  match load_order st order_id with
  | none => (st, jobs, "Bu order repost uchun aktiv emas (posted bo‘lishi kerak).")
  | some o =>
    if o.status ≠ "posted" then
      (st, jobs, "Bu order repost uchun aktiv emas (posted bo‘lishi kerak).")
    else
      let st2 :=
        if sendOk then store_order st { o with group_message_id := some newMid }
        else st
      (st2, schedule_reminder jobs order_id, "✅ Qayta e’lon qilindi.")

/-- The core of the `/setprice` admin command, after argument parsing:
update a given order's price line. -/
def setprice_apply (st : StateDoc) (order_id price_text : String) :
    StateDoc × String :=
  match load_order st order_id with
  | none => (st, "Order topilmadi.")
  | some o =>
    let o2 := { o with price_text := strOr price_text "Kelishilgan narxda" }
    (store_order st o2, "✅ Narx yangilandi: " ++ o2.price_text)

/-- Abstract JSON values, for the raw persistence layer (`load_state`). -/
inductive Json where
  | null
  | bool (b : Bool)
  | num (n : Int)
  | str (s : String)
  | arr (xs : List Json)
  | obj (kvs : List (String × Json))
deriving Repr

/-- Outcome of opening and parsing the state file: the file may be
missing (`FileNotFoundError`), unreadable (another I/O exception),
readable but not valid JSON (`json.load` raises), or parsed. -/
inductive ReadResult where
  | missing
  | ioError
  | parseError
  | parsed (j : Json)
deriving Repr

/-- The empty document returned by `load_state` on failure. -/
def emptyStateJson : Json :=
  .obj [("orders", .obj []), ("users", .obj []), ("settings", .obj [])]

/-- The `load_state` function: total over every read outcome. -/
def load_state : ReadResult → Json
  | .missing => emptyStateJson
  | .ioError => emptyStateJson
  | .parseError => emptyStateJson
  | .parsed j => j

/-- Python `d.setdefault(k, v)`: on a dict, insert `k` when absent;
on any other value the attribute access raises (`none`). -/
def jsonSetdefault (j : Json) (k : String) (v : Json) : Option Json :=
  match j with
  | .obj kvs =>
    if kvs.any (fun p => p.1 == k) then some (.obj kvs)
    else some (.obj (kvs ++ [(k, v)]))
  | _ => none

/-- Whether a JSON value is a dict containing the given key. -/
def jsonHasKey (j : Json) (k : String) : Bool :=
  match j with
  | .obj kvs => kvs.any (fun p => p.1 == k)
  | _ => false

/-- Module startup around the store: `STATE = load_state()` followed by
the three `STATE.setdefault(...)` calls; `none` models a raised
`AttributeError` (process start fails). -/
def startup (r : ReadResult) : Option Json := do
  let s1 ← jsonSetdefault (load_state r) "orders" (.obj [])
  let s2 ← jsonSetdefault s1 "users" (.obj [])
  jsonSetdefault s2 "settings" (.obj [])

/-- The order-mutating operations named by the spec's invariant, as one
event type: intake start, a conversation-driver message (including
intake completion), a group button press, admin cancel/repost, a price
change, the `/cancel` command, and a reminder tick. -/
inductive Op where
  | intakeStart (uid : Int) (oid name username : String)
  | routerMsg (uid : Int) (m : Msg) (newMid : Int) (sendOk : Bool)
  | groupCb (admins : List Int) (u : TgUser) (data : String) (newMid : Int) (sendOk : Bool)
  | admCancel (oid : String)
  | admRepost (oid : String) (newMid : Int) (sendOk : Bool)
  | setPrice (oid : String) (price : String)
  | cancelCmd (uid : Int)
  | tick (odata : Option String) (newMid : Int) (sendOk : Bool)

/-- Dispatch one operation against the document and the job queue. -/
def applyOp (st : StateDoc) (jobs : List String) : Op → StateDoc × List String
  | .intakeStart uid oid name username =>
    ((taxi_cmd_private st uid oid name username).1, jobs)
  | .routerMsg uid m newMid sendOk =>
    let r := private_router st jobs uid m newMid sendOk
    (r.store, r.jobs)
  | .groupCb admins u data newMid sendOk =>
    let r := on_callback admins st jobs u data true true newMid sendOk
    (r.store, r.jobs)
  | .admCancel oid =>
    let r := adm_cancel st jobs oid
    (r.1, r.2.1)
  | .admRepost oid newMid sendOk =>
    let r := adm_repost st jobs oid newMid sendOk
    (r.1, r.2.1)
  | .setPrice oid price =>
    ((setprice_apply st oid price).1, jobs)
  | .cancelCmd uid =>
    ((cancel_cmd st uid).1, jobs)
  | .tick odata newMid sendOk =>
    let r := reminder_tick st jobs odata newMid sendOk
    (r.store, r.jobs)

/-- The driver-binding invariant on a single order: `driver_id` is bound
exactly in status `assigned`, and the driver name fields are empty
outside `assigned`. -/
def driverInv (o : Order) : Prop :=
  (o.driver_id ≠ none ↔ o.status = "assigned") ∧
    (o.status ≠ "assigned" → o.driver_name = "" ∧ o.driver_username = "")

instance (o : Order) : Decidable (driverInv o) := by
  unfold driverInv; infer_instance

/-- The driver-binding invariant over every order of the document. -/
def storeInv (st : StateDoc) : Prop :=
  ∀ p ∈ st.orders, driverInv p.2

instance (st : StateDoc) : Decidable (storeInv st) := by
  unfold storeInv; infer_instance

/-- Side condition under which an operation preserves `storeInv`:
admin cancel must not target an `assigned` order, and a conversation
message must not act for a user whose referenced order is `assigned`
(unreachable in practice: the conversation only ever references a
`pending` or freshly `cancelled` order). -/
def opOk (st : StateDoc) : Op → Prop
  | .admCancel oid => ∀ o, load_order st oid = some o → o.status ≠ "assigned"
  | .routerMsg uid _ _ _ =>
    ∀ oid o, get_user_order_id st uid = some oid → load_order st oid = some o →
      o.status ≠ "assigned"
  | _ => True

/-! Concrete documents used to evaluate the theorems on closed inputs. -/

/-- A posted order owned by user 7, as stored under key "1". -/
def oPosted : Order :=
  { order_id := "1", user_id := 7, user_name := "Ali", user_username := "@ali",
    pickup_text := "Lokatsiya yuborildi", drop_text := "Airport", people := "2",
    when := "Hozir", status := "posted", group_message_id := some 100 }

/-- An assigned order: driver 5 bound. -/
def oAssigned : Order :=
  { oPosted with
    status := "assigned"
    driver_id := some 5
    driver_name := "Davron"
    driver_username := "@davron" }

/-- A pending order (intake in progress). -/
def oPending : Order :=
  { oPosted with
    status := "pending"
    group_message_id := none }

/-- A cancelled order. -/
def oCancelled : Order :=
  { oPosted with status := "cancelled" }

/-- A document holding only the posted order. -/
def stPosted : StateDoc := { orders := [("1", oPosted)] }

/-- A document holding only the assigned order. -/
def stAssigned : StateDoc := { orders := [("1", oAssigned)] }

/-- A document holding only the pending order. -/
def stPending : StateDoc := { orders := [("1", oPending)] }

/-- A document holding only the cancelled order. -/
def stCancelled : StateDoc := { orders := [("1", oCancelled)] }

/-- A document where user 7 is at the `username_confirm` step of order "1". -/
def stConvUsername : StateDoc :=
  { orders := [("1", oPending)],
    users := [("7", { step := "username_confirm", order_id := some "1" })] }

/-- A document where user 7 is at the `people` step of order "1". -/
def stConvPeople : StateDoc :=
  { orders := [("1", oPending)],
    users := [("7", { step := "people", order_id := some "1" })] }

/-- A document where user 7 is at the `username_confirm` step while the
referenced order "1" is already `assigned` — a state `private_router`
does not guard against. -/
def stConvAssigned : StateDoc :=
  { orders := [("1", oAssigned)],
    users := [("7", { step := "username_confirm", order_id := some "1" })] }

/-! Basic lemmas about the association-list dictionary operations. -/

theorem mem_of_setA {α : Type} {l : List (String × α)} {k : String} {v : α}
    {p : String × α} (h : p ∈ setA l k v) : p = (k, v) ∨ p ∈ l := by
  unfold setA at h
  split at h
  · rcases List.mem_map.1 h with ⟨q, hq, hfq⟩
    by_cases hk : q.1 == k
    · rw [if_pos hk] at hfq
      exact Or.inl hfq.symm
    · rw [if_neg hk] at hfq
      exact Or.inr (hfq ▸ hq)
  · rcases List.mem_append.1 h with h1 | h2
    · exact Or.inr h1
    · exact Or.inl (List.mem_singleton.1 h2)

theorem storeInv_store_order {st : StateDoc} {o : Order}
    (hst : storeInv st) (ho : driverInv o) : storeInv (store_order st o) := by
  intro p hp
  rcases mem_of_setA hp with h | h
  · rw [h]
    exact ho
  · exact hst p h

theorem driverInv_lookup {st : StateDoc} {oid : String} {o : Order}
    (hst : storeInv st) (h : load_order st oid = some o) : driverInv o := by
  unfold load_order lookupA at h
  rcases hf : st.orders.find? (fun p => p.1 == oid) with _ | q
  · rw [hf] at h
    simp at h
  · rw [hf] at h
    simp at h
    exact h ▸ hst q (List.mem_of_find?_eq_some hf)

theorem orders_set_user_step (st : StateDoc) (uid : Int) (s : String)
    (oid : Option String) : (set_user_step st uid s oid).orders = st.orders := by
  unfold set_user_step
  cases oid <;> rfl

theorem orders_pop_user_order (st : StateDoc) (uid : Int) :
    (pop_user_order st uid).orders = st.orders := rfl

theorem storeInv_set_user_step {st : StateDoc} {uid : Int} {s : String}
    {oid : Option String} (h : storeInv st) : storeInv (set_user_step st uid s oid) := by
  intro p hp
  rw [orders_set_user_step] at hp
  exact h p hp

theorem storeInv_pop_user_order {st : StateDoc} {uid : Int}
    (h : storeInv st) : storeInv (pop_user_order st uid) := by
  intro p hp
  rw [orders_pop_user_order] at hp
  exact h p hp

/-! Lemmas about `driverInv` under the field updates the handlers make. -/

theorem driverInv_congr {o o' : Order} (h : driverInv o)
    (hs : o'.status = o.status) (hid : o'.driver_id = o.driver_id)
    (hn : o'.driver_name = o.driver_name) (hu : o'.driver_username = o.driver_username) :
    driverInv o' := by
  unfold driverInv at h ⊢
  rw [hs, hid, hn, hu]
  exact h

theorem driverInv_unassigned {o : Order} (h : driverInv o) (hs : o.status ≠ "assigned") :
    o.driver_id = none ∧ o.driver_name = "" ∧ o.driver_username = "" := by
  obtain ⟨h1, h2⟩ := h
  refine ⟨?_, (h2 hs).1, (h2 hs).2⟩
  by_contra hne
  exact hs (h1.1 hne)

theorem cancelled_ne_assigned : ("cancelled" : String) ≠ "assigned" := by decide

theorem pending_ne_assigned : ("pending" : String) ≠ "assigned" := by decide

theorem posted_ne_assigned : ("posted" : String) ≠ "assigned" := by decide

theorem driverInv_of_fields {o : Order} (hid : o.driver_id = none)
    (hn : o.driver_name = "") (hu : o.driver_username = "")
    (hs : o.status ≠ "assigned") : driverInv o := by
  unfold driverInv
  constructor
  · rw [hid]
    simp [hs]
  · intro _
    exact ⟨hn, hu⟩

theorem pyEmpty_false_of_ne {s : String} (h : s ≠ "") : pyEmpty s = false := by
  unfold pyEmpty
  cases s with
  | mk data =>
    cases data with
    | nil => exact absurd rfl h
    | cons c cs => rfl

theorem find?_map_setA {α : Type} (k : String) (v : α) :
    ∀ l : List (String × α), l.any (fun p => p.1 == k) = true →
      (l.map (fun p => if p.1 == k then (k, v) else p)).find? (fun p => p.1 == k) =
        some (k, v) := by
  intro l
  induction l with
  | nil => intro h; simp at h
  | cons a l ih =>
    intro hany
    rw [List.map_cons]
    by_cases hk : (a.1 == k) = true
    · rw [if_pos hk]
      exact List.find?_cons_of_pos _ (by simp)
    · have hk2 : (a.1 == k) = false := by simpa using hk
      have h2 : l.any (fun p => p.1 == k) = true := by
        rw [List.any_cons, hk2] at hany
        simpa using hany
      rw [if_neg (by simp [hk2])]
      rw [List.find?_cons_of_neg _ (by simp [hk2])]
      exact ih h2

theorem find?_append_setA {α : Type} (k : String) (v : α) :
    ∀ l : List (String × α), l.any (fun p => p.1 == k) = false →
      (l ++ [(k, v)]).find? (fun p => p.1 == k) = some (k, v) := by
  intro l
  induction l with
  | nil =>
    intro _
    rw [List.nil_append]
    exact List.find?_cons_of_pos _ (by simp)
  | cons a l ih =>
    intro hany
    rw [List.any_cons, Bool.or_eq_false_iff] at hany
    obtain ⟨h1, h2⟩ := hany
    rw [List.cons_append, List.find?_cons_of_neg _ (by simp [h1])]
    exact ih h2

theorem lookupA_setA_self {α : Type} (l : List (String × α)) (k : String) (v : α) :
    lookupA (setA l k v) k = some v := by
  unfold lookupA setA
  by_cases hany : l.any (fun p => p.1 == k) = true
  · rw [if_pos hany, find?_map_setA k v l hany]
    rfl
  · have hany2 : l.any (fun p => p.1 == k) = false := Bool.eq_false_iff.2 hany
    rw [if_neg hany, find?_append_setA k v l hany2]
    rfl

theorem map_setA_id {α : Type} (k : String) (w : α) :
    ∀ l : List (String × α), l.any (fun p => p.1 == k) = false →
      l.map (fun p => if p.1 == k then (k, w) else p) = l := by
  intro l
  induction l with
  | nil => intro _; rfl
  | cons a l ih =>
    intro hany
    rw [List.any_cons, Bool.or_eq_false_iff] at hany
    obtain ⟨h1, h2⟩ := hany
    rw [List.map_cons, if_neg (by simp [h1]), ih h2]

theorem setA_setA {α : Type} (l : List (String × α)) (k : String) (v w : α) :
    setA (setA l k v) k w = setA l k w := by
  unfold setA
  by_cases hany : l.any (fun p => p.1 == k) = true
  · rw [if_pos hany]
    have hfun : ((fun p : String × α => p.1 == k) ∘
        (fun p => if p.1 == k then (k, v) else p)) = (fun p : String × α => p.1 == k) := by
      funext p
      by_cases hk : p.1 = k
      · simp [hk]
      · simp [hk]
    have hany2 : (l.map fun p => if p.1 == k then (k, v) else p).any
        (fun p => p.1 == k) = true := by
      rw [List.any_map, hfun, hany]
    rw [if_pos hany2, if_pos hany, List.map_map]
    congr 1
    funext p
    by_cases hk : p.1 = k
    · simp [hk]
    · simp [hk]
  · have hany2 : l.any (fun p => p.1 == k) = false := Bool.eq_false_iff.2 hany
    rw [if_neg hany]
    have h1 : (l ++ [(k, v)]).any (fun p => p.1 == k) = true := by
      rw [List.any_append]
      simp
    rw [if_pos h1, if_neg hany, List.map_append, map_setA_id k w l hany2]
    simp

theorem store_order_collapse (st : StateDoc) (o1 o2 : Order)
    (h : o2.order_id = o1.order_id) :
    store_order (store_order st o1) o2 = store_order st o2 := by
  unfold store_order
  simp only [h, setA_setA]

theorem conv_state_cleared (st : StateDoc) (uid : Int) :
    get_user_step (pop_user_order (set_user_step st uid "" none) uid) uid = "" ∧
    get_user_order_id (pop_user_order (set_user_step st uid "" none) uid) uid = none := by
  constructor <;>
    simp [get_user_step, get_user_order_id, pop_user_order, set_user_step,
      lookupA_setA_self]


/-! Preservation of `storeInv` by each handler. -/

theorem storeInv_taxi_cmd_private {st : StateDoc} (uid : Int)
    (oid name username : String) (h : storeInv st) :
    storeInv (taxi_cmd_private st uid oid name username).1 := by
  unfold taxi_cmd_private
  split
  · exact h
  · exact storeInv_set_user_step (storeInv_store_order h
      (driverInv_of_fields rfl rfl rfl pending_ne_assigned))

theorem storeInv_cancel_cmd {st : StateDoc} (uid : Int) (h : storeInv st) :
    storeInv (cancel_cmd st uid).1 := by
  simp only [cancel_cmd]
  split
  · exact h
  · apply storeInv_pop_user_order
    apply storeInv_set_user_step
    split
    · rename_i o ho
      split
      · rename_i hpend
        apply storeInv_store_order h
        obtain ⟨hid, hn, hu⟩ := driverInv_unassigned (driverInv_lookup h ho)
          (by rw [hpend]; decide)
        exact driverInv_of_fields hid hn hu cancelled_ne_assigned
      · exact h
    · exact h

theorem storeInv_setprice_apply {st : StateDoc} (oid price : String)
    (h : storeInv st) : storeInv (setprice_apply st oid price).1 := by
  unfold setprice_apply
  split
  · exact h
  · rename_i o ho
    exact storeInv_store_order h (driverInv_congr (driverInv_lookup h ho) rfl rfl rfl rfl)

theorem storeInv_adm_cancel {st : StateDoc} (jobs : List String) (oid : String)
    (h : storeInv st) (hok : ∀ o, load_order st oid = some o → o.status ≠ "assigned") :
    storeInv (adm_cancel st jobs oid).1 := by
  unfold adm_cancel
  split
  · exact h
  · rename_i o ho
    apply storeInv_store_order h
    obtain ⟨hid, hn, hu⟩ := driverInv_unassigned (driverInv_lookup h ho) (hok o ho)
    exact driverInv_of_fields hid hn hu cancelled_ne_assigned

theorem storeInv_adm_repost {st : StateDoc} (jobs : List String) (oid : String)
    (nm : Int) (ok : Bool) (h : storeInv st) :
    storeInv (adm_repost st jobs oid nm ok).1 := by
  unfold adm_repost
  split
  · exact h
  · rename_i o ho
    split
    · exact h
    · split
      · exact storeInv_store_order h
          (driverInv_congr (driverInv_lookup h ho) rfl rfl rfl rfl)
      · exact h

theorem storeInv_reminder_tick {st : StateDoc} (jobs : List String)
    (odata : Option String) (nm : Int) (ok : Bool) (h : storeInv st) :
    storeInv (reminder_tick st jobs odata nm ok).store := by
  unfold reminder_tick
  split
  · exact h
  · split
    · exact h
    · split
      · exact h
      · rename_i o ho
        split
        · exact h
        · split
          · exact storeInv_store_order h
              (driverInv_congr (driverInv_lookup h ho) rfl rfl rfl rfl)
          · exact h

theorem driverInv_assigned_bind (o : Order) (d : Int) (n un : String) :
    driverInv { o with
      status := "assigned"
      driver_id := some d
      driver_name := n
      driver_username := un } := by
  unfold driverInv
  refine ⟨?_, ?_⟩
  · simp
  · intro hne
    exact absurd rfl hne

theorem storeInv_on_callback (admins : List Int) {st : StateDoc} (jobs : List String)
    (u : TgUser) (data : String) (c t : Bool) (nm : Int) (ok : Bool) (h : storeInv st) :
    storeInv (on_callback admins st jobs u data c t nm ok).store := by
  simp only [on_callback]
  split
  · exact h
  · split
    · exact h
    · split
      · exact h
      · rename_i o ho
        split
        · -- action = "cancel"
          split
          · exact h
          · split
            · exact h
            · split
              · exact h
              · rename_i hnc hna
                apply storeInv_store_order h
                obtain ⟨hid, hn, hu⟩ := driverInv_unassigned (driverInv_lookup h ho) hna
                exact driverInv_of_fields hid hn hu cancelled_ne_assigned
        · split
          · -- action = "accept"
            split
            · exact h
            · exact storeInv_store_order h (driverInv_assigned_bind o u.id u.full_name (at_username u))
          · split
            · -- action = "driver_cancel"
              split
              · exact h
              · split
                · exact h
                · split
                  · exact storeInv_store_order h
                      (driverInv_of_fields rfl rfl rfl posted_ne_assigned)
                  · apply storeInv_store_order
                    · exact storeInv_store_order h
                        (driverInv_of_fields rfl rfl rfl posted_ne_assigned)
                    · exact driverInv_congr
                        (driverInv_of_fields rfl rfl rfl posted_ne_assigned) rfl rfl rfl rfl
            · exact h

theorem storeInv_step_pickup_location {st : StateDoc} (jobs : List String)
    (uid : Int) (oid : String) {o : Order} (m : Msg) (h : storeInv st)
    (hdo : driverInv o) : storeInv (step_pickup_location st jobs uid oid o m).store := by
  unfold step_pickup_location
  split
  · exact storeInv_set_user_step (storeInv_store_order h (driverInv_congr hdo rfl rfl rfl rfl))
  · exact h

theorem storeInv_step_pickup_text {st : StateDoc} (jobs : List String)
    (uid : Int) (oid : String) {o : Order} (m : Msg) (h : storeInv st)
    (hdo : driverInv o) : storeInv (step_pickup_text st jobs uid oid o m).store := by
  unfold step_pickup_text
  split
  · exact storeInv_set_user_step (storeInv_store_order h (driverInv_congr hdo rfl rfl rfl rfl))
  · exact h

theorem storeInv_step_drop_choice {st : StateDoc} (jobs : List String)
    (uid : Int) (oid : String) {o : Order} (m : Msg) (h : storeInv st)
    (hdo : driverInv o) : storeInv (step_drop_choice st jobs uid oid o m).store := by
  unfold step_drop_choice
  split
  · exact storeInv_set_user_step (storeInv_store_order h (driverInv_congr hdo rfl rfl rfl rfl))
  · split
    · exact storeInv_set_user_step (storeInv_store_order h (driverInv_congr hdo rfl rfl rfl rfl))
    · exact h

theorem storeInv_step_drop_text {st : StateDoc} (jobs : List String)
    (uid : Int) (oid : String) {o : Order} (m : Msg) (h : storeInv st)
    (hdo : driverInv o) : storeInv (step_drop_text st jobs uid oid o m).store := by
  unfold step_drop_text
  split
  · exact storeInv_set_user_step (storeInv_store_order h (driverInv_congr hdo rfl rfl rfl rfl))
  · exact h

theorem storeInv_step_people {st : StateDoc} (jobs : List String)
    (uid : Int) (oid : String) {o : Order} (m : Msg) (h : storeInv st)
    (hdo : driverInv o) : storeInv (step_people st jobs uid oid o m).store := by
  unfold step_people
  split
  · split
    · exact storeInv_set_user_step (storeInv_store_order h (driverInv_congr hdo rfl rfl rfl rfl))
    · exact h
  · exact h

theorem storeInv_step_when {st : StateDoc} (jobs : List String)
    (uid : Int) (oid : String) {o : Order} (m : Msg) (h : storeInv st)
    (hdo : driverInv o) : storeInv (step_when st jobs uid oid o m).store := by
  unfold step_when
  split
  · split
    · exact storeInv_set_user_step (storeInv_store_order h (driverInv_congr hdo rfl rfl rfl rfl))
    · split
      · exact storeInv_set_user_step h
      · exact h
  · exact h

theorem storeInv_step_when_text {st : StateDoc} (jobs : List String)
    (uid : Int) (oid : String) {o : Order} (m : Msg) (h : storeInv st)
    (hdo : driverInv o) : storeInv (step_when_text st jobs uid oid o m).store := by
  unfold step_when_text
  split
  · exact storeInv_set_user_step (storeInv_store_order h (driverInv_congr hdo rfl rfl rfl rfl))
  · exact h

theorem storeInv_step_phone {st : StateDoc} (jobs : List String)
    (uid : Int) (oid : String) {o : Order} (m : Msg) (h : storeInv st)
    (hdo : driverInv o) : storeInv (step_phone st jobs uid oid o m).store := by
  unfold step_phone
  split
  · exact storeInv_set_user_step (storeInv_store_order h (driverInv_congr hdo rfl rfl rfl rfl))
  · split
    · split
      · exact storeInv_set_user_step (storeInv_store_order h (driverInv_congr hdo rfl rfl rfl rfl))
      · exact storeInv_set_user_step (storeInv_store_order h (driverInv_congr hdo rfl rfl rfl rfl))
    · exact h

theorem storeInv_step_username_confirm {st : StateDoc} (jobs : List String)
    (uid : Int) (oid : String) {o : Order} (m : Msg) (nm : Int) (ok : Bool)
    (h : storeInv st) (hdo : driverInv o) (hna : o.status ≠ "assigned") :
    storeInv (step_username_confirm st jobs uid oid o m nm ok).store := by
  obtain ⟨hid, hn, hu⟩ := driverInv_unassigned hdo hna
  unfold step_username_confirm
  split
  · split_ifs
    all_goals
      first
        | (refine storeInv_set_user_step
             (storeInv_store_order (storeInv_store_order h ?_) ?_)
           exact driverInv_congr hdo rfl rfl rfl rfl
           exact driverInv_of_fields hid hn hu posted_ne_assigned)
        | (refine storeInv_pop_user_order (storeInv_set_user_step
             (storeInv_store_order (storeInv_store_order (storeInv_store_order h ?_) ?_) ?_))
           exact driverInv_congr hdo rfl rfl rfl rfl
           exact driverInv_of_fields hid hn hu posted_ne_assigned
           exact driverInv_of_fields hid hn hu posted_ne_assigned)
  · exact h

set_option maxHeartbeats 1000000 in
theorem storeInv_private_router {st : StateDoc} (jobs : List String) (uid : Int)
    (m : Msg) (nm : Int) (ok : Bool) (h : storeInv st)
    (hok : ∀ oid o, get_user_order_id st uid = some oid → load_order st oid = some o →
      o.status ≠ "assigned") :
    storeInv (private_router st jobs uid m nm ok).store := by
  simp only [private_router]
  cases hgo : get_user_order_id st uid with
  | none =>
    simp only [pyFalsyOpt, Bool.or_true, if_true]
    exact h
  | some s =>
    simp only [pyFalsyOpt, Option.getD_some]
    split
    · exact h
    · split
      · exact storeInv_set_user_step h
      · rename_i o ho
        have hna : o.status ≠ "assigned" := hok s o hgo ho
        have hdo : driverInv o := driverInv_lookup h ho
        split
        · exact storeInv_cancel_cmd uid h
        · split
          · exact storeInv_step_pickup_location jobs uid s m h hdo
          · split
            · exact storeInv_step_pickup_text jobs uid s m h hdo
            · split
              · exact storeInv_step_drop_choice jobs uid s m h hdo
              · split
                · exact storeInv_step_drop_text jobs uid s m h hdo
                · split
                  · exact storeInv_step_people jobs uid s m h hdo
                  · split
                    · exact storeInv_step_when jobs uid s m h hdo
                    · split
                      · exact storeInv_step_when_text jobs uid s m h hdo
                      · split
                        · exact storeInv_step_phone jobs uid s m h hdo
                        · split
                          · exact storeInv_step_username_confirm jobs uid s m nm ok h hdo hna
                          · exact h

/-- C1 (counterexample): three refutations of the claim as stated, each
at a concrete document.  First, the store holding one `assigned` order
satisfies the driver-binding invariant, but after the admin-cancel
operation the order is `cancelled` while still carrying its driver
binding.  Second, a conversation message is not unconditionally
preserving either: when the user's referenced order is `assigned`, the
`username_confirm` terminal step flips its status to `posted` while
keeping the driver fields, breaking the invariant — so preservation for
conversation messages also needs a side condition.  Third, the
name/username half of the claimed biconditional fails in the other
direction on driver accept itself: a presser without a Telegram
username is bound with `driver_username = ""` on an order that is now
`assigned`, so those fields are not non-empty whenever the status is
`assigned`. -/
theorem c1_driver_binding_counterexample :
    (storeInv stAssigned ∧
      ¬ storeInv (applyOp stAssigned [] (Op.admCancel "1")).1 ∧
      load_order (applyOp stAssigned [] (Op.admCancel "1")).1 "1" =
        some { oAssigned with status := "cancelled" }) ∧
    (storeInv stConvAssigned ∧
      ¬ storeInv (applyOp stConvAssigned []
        (Op.routerMsg 7 { text := some "x" } 3 true)).1 ∧
      load_order (applyOp stConvAssigned []
          (Op.routerMsg 7 { text := some "x" } 3 true)).1 "1" =
        some { oAssigned with
          username_confirm := "@x"
          status := "posted"
          group_message_id := some 3 }) ∧
    (load_order (on_callback [] stPosted [] ⟨6, "Bob", none⟩
        "accept:1" true true 0 true).store "1" =
      some (accepted_order oPosted ⟨6, "Bob", none⟩) ∧
      (accepted_order oPosted ⟨6, "Bob", none⟩).status = "assigned" ∧
      (accepted_order oPosted ⟨6, "Bob", none⟩).driver_username = "") := by
  refine ⟨⟨by decide, by decide, by decide⟩,
    ⟨by decide, by decide, by decide⟩, by decide, by decide, by decide⟩

/-- C1 (amended): the driver-binding invariant — `driver_id` is non-null
iff `status = assigned`, and the driver name/username fields are empty
whenever the status is not `assigned` (this direction only: accept
binds the presser's possibly-empty name and username) — is established
at order creation and preserved by intake start, conversation-driver
messages, the group buttons (driver accept, customer cancel, driver
release), admin cancel and repost, price change, `/cancel` and reminder
ticks, under the two side conditions of `opOk` that the handlers do not
themselves guard: admin cancel must not target a currently `assigned`
order, and a conversation message must not act for a user whose
referenced order is `assigned` (normally unreachable — an in-progress
order is `pending` — but `private_router` does not check it). -/
theorem c1_driver_binding_invariant_preserved (st : StateDoc) (jobs : List String)
    (op : Op) (h : storeInv st) (hok : opOk st op) :
    storeInv (applyOp st jobs op).1 := by
  cases op with
  | intakeStart uid oid name username =>
    exact storeInv_taxi_cmd_private uid oid name username h
  | routerMsg uid m nm okb =>
    exact storeInv_private_router jobs uid m nm okb h hok
  | groupCb admins u data nm okb =>
    exact storeInv_on_callback admins jobs u data true true nm okb h
  | admCancel oid =>
    exact storeInv_adm_cancel jobs oid h hok
  | admRepost oid nm okb =>
    exact storeInv_adm_repost jobs oid nm okb h
  | setPrice oid price =>
    exact storeInv_setprice_apply oid price h
  | cancelCmd uid =>
    exact storeInv_cancel_cmd uid h
  | tick odata nm okb =>
    exact storeInv_reminder_tick jobs odata nm okb h

/-- C1 witness: the amended preservation theorem applied to the admin
cancel of a `posted` order. -/
theorem c1_driver_binding_witness :
    storeInv (applyOp stPosted [] (Op.admCancel "1")).1 := by
  refine c1_driver_binding_invariant_preserved stPosted [] (Op.admCancel "1") (by decide) ?_
  intro o ho
  have h2 : some oPosted = some o := ho
  injection h2 with h3
  rw [← h3]
  decide

/-- C8 (confirmed): the card text and the action keyboard are pure,
deterministic functions of the order value: equal orders render to
identical text and identical keyboards. -/
theorem c8_render_deterministic (o1 o2 : Order) (h : o1 = o2) :
    order_card_text o1 = order_card_text o2 ∧ order_keyboard o1 = order_keyboard o2 := by
  subst h
  exact ⟨rfl, rfl⟩

/-- C8 witness: determinism evaluated at the concrete posted order. -/
theorem c8_render_witness :
    order_card_text oPosted = order_card_text oPosted ∧
    order_keyboard oPosted = order_keyboard oPosted :=
  c8_render_deterministic oPosted oPosted rfl

theorem jsonSetdefault_obj_spec (kvs : List (String × Json)) (k : String) (v : Json) :
    ∃ kvs2, jsonSetdefault (.obj kvs) k v = some (.obj kvs2) ∧
      jsonHasKey (.obj kvs2) k = true ∧
      (∀ k2, jsonHasKey (.obj kvs) k2 = true → jsonHasKey (.obj kvs2) k2 = true) := by
  by_cases hany : kvs.any (fun p => p.1 == k)
  · refine ⟨kvs, ?_, hany, fun k2 h => h⟩
    simp [jsonSetdefault, hany]
  · refine ⟨kvs ++ [(k, v)], ?_, ?_, ?_⟩
    · simp [jsonSetdefault, hany]
    · simp [jsonHasKey]
    · intro k2 h
      simp only [jsonHasKey, List.any_append, Bool.or_eq_true] at h ⊢
      exact Or.inl h

/-- C10 (amended): `load_state` is total — a missing, unreadable, or
unparseable state file yields the empty three-key document, and startup
then succeeds; and whenever the file parses to a JSON *object*, startup
succeeds with all three top-level keys present.  (A file parsing to a
non-object JSON value is returned as-is and startup fails — see the
counterexample.) -/
theorem c10_load_state_total (r : ReadResult) :
    ((r = .missing ∨ r = .ioError ∨ r = .parseError) →
      load_state r = emptyStateJson ∧ startup r = some emptyStateJson) ∧
    (∀ kvs, r = .parsed (.obj kvs) →
      ∃ j, startup r = some j ∧ jsonHasKey j "orders" = true ∧
        jsonHasKey j "users" = true ∧ jsonHasKey j "settings" = true) := by
  constructor
  · rintro (rfl | rfl | rfl) <;> exact ⟨rfl, rfl⟩
  · rintro kvs rfl
    obtain ⟨k1, e1, h1o, m1⟩ := jsonSetdefault_obj_spec kvs "orders" (.obj [])
    obtain ⟨k2, e2, h2u, m2⟩ := jsonSetdefault_obj_spec k1 "users" (.obj [])
    obtain ⟨k3, e3, h3s, m3⟩ := jsonSetdefault_obj_spec k2 "settings" (.obj [])
    refine ⟨.obj k3, ?_, ?_, ?_, ?_⟩
    · simp [startup, load_state, e1, e2, e3]
    · exact m3 _ (m2 _ h1o)
    · exact m3 _ h2u
    · exact h3s

/-- C10 witness: the totality theorem applied to a missing state file. -/
theorem c10_load_state_witness :
    load_state ReadResult.missing = emptyStateJson ∧
    startup ReadResult.missing = some emptyStateJson :=
  (c10_load_state_total ReadResult.missing).1 (Or.inl rfl)

/-- C10 (counterexample): a state file whose contents parse to the JSON
array `[]` is not a failure case for `load_state` (it is returned
unchanged), and the startup `setdefault` calls then raise, so startup
does not always produce a well-formed three-key store. -/
theorem c10_nonobject_counterexample :
    load_state (ReadResult.parsed (Json.arr [])) = Json.arr [] ∧
    startup (ReadResult.parsed (Json.arr [])) = none :=
  ⟨rfl, rfl⟩


/-- C2 (confirmed): a driver accept press transitions the order to
`assigned` and binds the presser's identity exactly when the prior
status is `posted`; any other prior status is rejected with the
"no longer active" alert and the document, jobs and order are left
unchanged. -/
theorem c2_accept_only_posted (admins : List Int) (st : StateDoc) (jobs : List String)
    (u : TgUser) (data oid : String) (o : Order) (nm : Int) (okb : Bool)
    (hsplit : splitColon data = some ("accept", oid))
    (ho : load_order st oid = some o) :
    (o.status = "posted" →
      on_callback admins st jobs u data true true nm okb =
        { store := store_order st (accepted_order o u),
          jobs := delete_job jobs (remind_job_name oid),
          reply := some ("Qabul qilindi ✅", false),
          notices := [(o.user_id, accept_notice (accepted_order o u))],
          reposted := false }) ∧
    (o.status ≠ "posted" →
      on_callback admins st jobs u data true true nm okb =
        { store := st, jobs := jobs,
          reply := some ("Bu buyurtma endi aktiv emas.", true) }) := by
  constructor
  · intro hp
    simp [on_callback, hsplit, ho, accepted_order, accept_notice, at_username, hp]
  · intro hp
    simp [on_callback, hsplit, ho, hp]

/-- C2 witness: driver 5 accepts the posted order "1". -/
theorem c2_accept_witness :
    on_callback [] stPosted [] ⟨5, "Davron", some "davron"⟩ "accept:1" true true 0 true =
      { store := store_order stPosted (accepted_order oPosted ⟨5, "Davron", some "davron"⟩),
        jobs := delete_job [] (remind_job_name "1"),
        reply := some ("Qabul qilindi ✅", false),
        notices := [(7, accept_notice (accepted_order oPosted ⟨5, "Davron", some "davron"⟩))],
        reposted := false } :=
  (c2_accept_only_posted [] stPosted [] ⟨5, "Davron", some "davron"⟩ "accept:1" "1"
    oPosted 0 true (by decide) (by decide)).1 (by decide)

/-- C3 (counterexample): a `pending` order — a status other than `posted` —
is not rejected by the customer cancel press: the owner's press mutates
the stored order to `cancelled`. -/
theorem c3_pending_cancel_counterexample :
    oPending.status ≠ "posted" ∧
    load_order (on_callback [] stPending [] ⟨7, "Ali", none⟩ "cancel:1" true true 0 true).store "1" =
      some { oPending with status := "cancelled" } ∧
    (on_callback [] stPending [] ⟨7, "Ali", none⟩ "cancel:1" true true 0 true).store ≠ stPending :=
  ⟨by decide, by decide, by decide⟩

/-- C3 (amended): the customer cancel press is rejected — with the
document, jobs and order unchanged — when the actor is not the owning
requester, when the order is already `cancelled`, or when it is
`assigned`; for every other status (`posted`, but also `pending` or an
unknown tag) the owner's press transitions the order to `cancelled`,
stops its reminder and notifies the requester. -/
theorem c3_cancel_guards (admins : List Int) (st : StateDoc) (jobs : List String)
    (u : TgUser) (data oid : String) (o : Order) (nm : Int) (okb : Bool)
    (hsplit : splitColon data = some ("cancel", oid))
    (ho : load_order st oid = some o) :
    (u.id ≠ o.user_id →
      on_callback admins st jobs u data true true nm okb =
        { store := st, jobs := jobs,
          reply := some ("Bekor qilish faqat buyurtmachiga mumkin.", true) }) ∧
    (u.id = o.user_id → o.status = "cancelled" →
      on_callback admins st jobs u data true true nm okb =
        { store := st, jobs := jobs,
          reply := some ("Allaqachon bekor qilingan.", true) }) ∧
    (u.id = o.user_id → o.status = "assigned" →
      on_callback admins st jobs u data true true nm okb =
        { store := st, jobs := jobs,
          reply := some ("Haydovchi biriktirilgan. Bekor qilib bo‘lmaydi.", true) }) ∧
    (u.id = o.user_id → o.status ≠ "cancelled" → o.status ≠ "assigned" →
      on_callback admins st jobs u data true true nm okb =
        { store := store_order st { o with status := "cancelled" },
          jobs := delete_job jobs (remind_job_name oid),
          reply := some ("Bekor qilindi.", false),
          notices := [(o.user_id, "❌ Buyurtma bekor qilindi.")],
          reposted := false }) := by
  refine ⟨?_, ?_, ?_, ?_⟩
  · intro h1
    simp [on_callback, hsplit, ho, h1]
  · intro h1 h2
    simp [on_callback, hsplit, ho, h1, h2]
  · intro h1 h2
    simp [on_callback, hsplit, ho, h1, h2]
  · intro h1 h2 h3
    simp [on_callback, hsplit, ho, h1, h2, h3]

/-- C3 witness: the owner cancels the posted order "1". -/
theorem c3_cancel_witness :
    on_callback [] stPosted [] ⟨7, "Ali", none⟩ "cancel:1" true true 0 true =
      { store := store_order stPosted { oPosted with status := "cancelled" },
        jobs := delete_job [] (remind_job_name "1"),
        reply := some ("Bekor qilindi.", false),
        notices := [(7, "❌ Buyurtma bekor qilindi.")],
        reposted := false } :=
  (c3_cancel_guards [] stPosted [] ⟨7, "Ali", none⟩ "cancel:1" "1" oPosted 0 true
    (by decide) (by decide)).2.2.2 (by decide) (by decide) (by decide)

/-- C4 (confirmed): pressing customer cancel on an already-`cancelled`
order leaves the document and the job queue completely unchanged and
sends no notification; the owning requester is shown exactly the
"already cancelled" rejection (a non-owner is stopped by the prior
owner guard, equally without change). -/
theorem c4_cancel_idempotent (admins : List Int) (st : StateDoc) (jobs : List String)
    (u : TgUser) (data oid : String) (o : Order) (nm : Int) (okb : Bool)
    (hsplit : splitColon data = some ("cancel", oid))
    (ho : load_order st oid = some o) (hc : o.status = "cancelled") :
    (on_callback admins st jobs u data true true nm okb).store = st ∧
    (on_callback admins st jobs u data true true nm okb).jobs = jobs ∧
    (on_callback admins st jobs u data true true nm okb).notices = [] ∧
    (u.id = o.user_id →
      (on_callback admins st jobs u data true true nm okb).reply =
        some ("Allaqachon bekor qilingan.", true)) := by
  by_cases h1 : u.id = o.user_id <;>
    simp [on_callback, hsplit, ho, hc, h1]

/-- C4 witness: the owner presses cancel again on the cancelled order. -/
theorem c4_cancel_idempotent_witness :
    (on_callback [] stCancelled [] ⟨7, "Ali", none⟩ "cancel:1" true true 0 true).store = stCancelled ∧
    (on_callback [] stCancelled [] ⟨7, "Ali", none⟩ "cancel:1" true true 0 true).reply =
      some ("Allaqachon bekor qilingan.", true) := by
  have h := c4_cancel_idempotent [] stCancelled [] ⟨7, "Ali", none⟩ "cancel:1" "1"
    oCancelled 0 true (by decide) (by decide) (by decide)
  exact ⟨h.1, h.2.2.2 (by decide)⟩

/-- C9 (amended): a callback without a colon separator is ignored with
nothing shown and nothing changed; an unknown action (such as `noop`)
on an order that exists is likewise ignored silently; but when the
order id does not resolve, the not-found alert is shown (before the
action is inspected), still with no mutation and no save. -/
theorem c9_unknown_action_ignored (admins : List Int) (st : StateDoc) (jobs : List String)
    (u : TgUser) (data : String) (nm : Int) (okb : Bool) :
    (splitColon data = none →
      on_callback admins st jobs u data true true nm okb =
        { store := st, jobs := jobs }) ∧
    (∀ action oid o, splitColon data = some (action, oid) →
      load_order st oid = some o →
      action ≠ "cancel" → action ≠ "accept" → action ≠ "driver_cancel" →
      on_callback admins st jobs u data true true nm okb =
        { store := st, jobs := jobs }) ∧
    (∀ action oid, splitColon data = some (action, oid) →
      load_order st oid = none →
      on_callback admins st jobs u data true true nm okb =
        { store := st, jobs := jobs, reply := some ("Buyurtma topilmadi.", true) }) := by
  refine ⟨?_, ?_, ?_⟩
  · intro hs
    simp [on_callback, hs]
  · intro action oid o hs ho h1 h2 h3
    simp [on_callback, hs, ho, h1, h2, h3]
  · intro action oid hs ho
    simp [on_callback, hs, ho]

/-- C9 witness: a `noop` press on the existing posted order "1" changes
nothing and shows nothing. -/
theorem c9_unknown_action_witness :
    on_callback [] stPosted [] ⟨5, "Davron", none⟩ "noop:1" true true 0 true =
      { store := stPosted, jobs := [] } :=
  (c9_unknown_action_ignored [] stPosted [] ⟨5, "Davron", none⟩ "noop:1" 0 true).2.1
    "noop" "1" oPosted (by decide) (by decide) (by decide) (by decide) (by decide)

/-- C9 (counterexample): a `noop`-action callback whose order id does not
resolve is not silent — the presser is shown the "Buyurtma topilmadi."
alert, because the not-found check runs before the action is examined. -/
theorem c9_noop_alert_counterexample :
    (on_callback [] ({} : StateDoc) [] ⟨5, "Davron", none⟩ "noop:9" true true 0 true).reply =
      some ("Buyurtma topilmadi.", true) := by decide


theorem is_cancel_text_eq_false {m : Msg} {txt : String}
    (htxt : pyTextStrip m = some txt) (hcan : txt ≠ "⛔ Bekor qilish") :
    is_cancel_text m = false := by
  unfold pyTextStrip at htxt
  unfold is_cancel_text
  cases hm : m.text with
  | none => rfl
  | some t =>
    rw [hm] at htxt
    have htxt2 : (if pyEmpty t = true then (none : Option String)
        else if pyEmpty (pyStrip t) = true then none else some (pyStrip t)) = some txt := htxt
    show (!pyEmpty t && pyStrip t == "⛔ Bekor qilish") = false
    by_cases h1 : pyEmpty t = true
    · rw [if_pos h1] at htxt2
      exact absurd htxt2 (by simp)
    · have h1f : pyEmpty t = false := Bool.eq_false_iff.2 h1
      rw [if_neg h1] at htxt2
      by_cases h2 : pyEmpty (pyStrip t) = true
      · rw [if_pos h2] at htxt2
        exact absurd htxt2 (by simp)
      · rw [if_neg h2] at htxt2
        have htv : pyStrip t = txt := by injection htxt2
        rw [h1f, htv]
        simp [hcan]

theorem store_order_collapse3 (st : StateDoc) (o1 o2 o3 : Order)
    (h2 : o2.order_id = o1.order_id) (h3 : o3.order_id = o2.order_id) :
    store_order (store_order (store_order st o1) o2) o3 = store_order st o3 := by
  unfold store_order
  simp only [h3, h2, setA_setA]

/-- C5 (confirmed): a reminder tick carrying order id X: when no such
order exists, or its status is not `posted`, the timer self-cancels,
nothing is reposted and the document is unchanged; when the status is
`posted`, the card is reposted and the fresh message handle is
persisted into `group_message_id` (transport success assumed — a failed
send is logged and changes nothing). -/
theorem c5_reminder_tick (st : StateDoc) (jobs : List String) (oid : String)
    (nm : Int) (hne : oid ≠ "") :
    (load_order st oid = none →
      reminder_tick st jobs (some oid) nm true =
        { store := st, jobs := delete_job jobs (remind_job_name oid),
          reposted := false }) ∧
    (∀ o, load_order st oid = some o → o.status ≠ "posted" →
      reminder_tick st jobs (some oid) nm true =
        { store := st, jobs := delete_job jobs (remind_job_name oid),
          reposted := false }) ∧
    (∀ o, load_order st oid = some o → o.status = "posted" →
      reminder_tick st jobs (some oid) nm true =
        { store := store_order st { o with group_message_id := some nm },
          jobs := jobs, reposted := true }) := by
  have hemp : pyEmpty oid = false := pyEmpty_false_of_ne hne
  refine ⟨?_, ?_, ?_⟩
  · intro ho
    simp [reminder_tick, hemp, ho]
  · intro o ho hs
    simp [reminder_tick, hemp, ho, hs]
  · intro o ho hs
    simp [reminder_tick, hemp, ho, hs]

/-- C5 witness: a tick for the order after it became `assigned`
self-cancels the timer without reposting. -/
theorem c5_reminder_tick_witness :
    reminder_tick stAssigned ["remind:1"] (some "1") 9 true =
      { store := stAssigned, jobs := delete_job ["remind:1"] (remind_job_name "1"),
        reposted := false } :=
  (c5_reminder_tick stAssigned ["remind:1"] "1" 9 (by decide)).2.1
    oAssigned (by decide) (by decide)

/-- C6 (confirmed): at the `username_confirm` step, a non-empty text
whose lower-cased form is one of the "no handle" phrases sets
`username_confirm` to the empty string, and any other text is stored
prefixed with "@" unless already so prefixed; the step then flips the
order's status to `posted` (persisting the fresh card handle),
schedules the reminder, and clears the user's conversation state
(empty step, order id removed). -/
theorem c6_username_confirm_step (st : StateDoc) (jobs : List String) (uid : Int)
    (m : Msg) (nm : Int) (oid : String) (o : Order) (txt : String)
    (hstep : get_user_step st uid = "username_confirm")
    (hoid : get_user_order_id st uid = some oid)
    (hne : oid ≠ "")
    (ho : load_order st oid = some o)
    (htxt : pyTextStrip m = some txt)
    (hcan : txt ≠ "⛔ Bekor qilish") :
    private_router st jobs uid m nm true =
      { store := pop_user_order (set_user_step (store_order st
          { o with
            username_confirm :=
              if yoq_phrases.contains (pyLower txt) then ""
              else if pyStartsWith txt "@" then txt else "@" ++ txt
            status := "posted"
            group_message_id := some nm }) uid "" none) uid,
        jobs := schedule_reminder jobs oid,
        reply := some "✅ Buyurtmangiz taksi bo‘limiga yuborildi.\nHaydovchi topilishi bilan sizga xabar beraman." } ∧
    get_user_step (private_router st jobs uid m nm true).store uid = "" ∧
    get_user_order_id (private_router st jobs uid m nm true).store uid = none := by
  have hse : pyEmpty "username_confirm" = false := by decide
  have hct : is_cancel_text m = false := is_cancel_text_eq_false htxt hcan
  have hmain : private_router st jobs uid m nm true =
      step_username_confirm st jobs uid oid o m nm true := by
    simp [private_router, hstep, hoid, hse, pyFalsyOpt, pyEmpty_false_of_ne hne,
      Option.getD_some, ho, hct]
  have hterm : step_username_confirm st jobs uid oid o m nm true =
      { store := pop_user_order (set_user_step (store_order st
          { o with
            username_confirm :=
              if yoq_phrases.contains (pyLower txt) then ""
              else if pyStartsWith txt "@" then txt else "@" ++ txt
            status := "posted"
            group_message_id := some nm }) uid "" none) uid,
        jobs := schedule_reminder jobs oid,
        reply := some "✅ Buyurtmangiz taksi bo‘limiga yuborildi.\nHaydovchi topilishi bilan sizga xabar beraman." } := by
    simp only [step_username_confirm, htxt, Bool.not_true, Bool.false_eq_true, if_false]
    rw [store_order_collapse3]
    · rfl
    · rfl
  rw [hmain, hterm]
  refine ⟨rfl, ?_, ?_⟩
  · exact (conv_state_cleared _ uid).1
  · exact (conv_state_cleared _ uid).2

/-- C6 witness: user 7 completes intake of order "1" with the handle
text `aliatt0r` (stored as `@aliatt0r`), and the conversation state is
cleared. -/
theorem c6_username_confirm_witness :
    load_order (private_router stConvUsername [] 7
        { text := some " aliatt0r " } 55 true).store "1" =
      some { oPending with
        username_confirm := "@aliatt0r"
        status := "posted"
        group_message_id := some 55 } ∧
    (private_router stConvUsername [] 7 { text := some " aliatt0r " } 55 true).jobs =
      schedule_reminder [] "1" ∧
    get_user_step (private_router stConvUsername [] 7
        { text := some " aliatt0r " } 55 true).store 7 = "" ∧
    get_user_order_id (private_router stConvUsername [] 7
        { text := some " aliatt0r " } 55 true).store 7 = none := by
  have h := c6_username_confirm_step stConvUsername [] 7
    { text := some " aliatt0r " } 55 "1" oPending "aliatt0r"
    (by decide) (by decide) (by decide) (by decide) (by decide) (by decide)
  refine ⟨?_, ?_, h.2.1, h.2.2⟩
  · rw [h.1]
    decide
  · rw [h.1]


theorem isSome_false_eq_none {α : Type} {x : Option α} (h : x.isSome = false) :
    x = none := by
  cases x with
  | none => rfl
  | some v => simp at h

theorem step_pickup_location_reject (st : StateDoc) (jobs : List String)
    (uid : Int) (oid : String) (o : Order) (m : Msg) (h : m.location = none) :
    (step_pickup_location st jobs uid oid o m).store = st ∧
    (step_pickup_location st jobs uid oid o m).jobs = jobs := by
  unfold step_pickup_location
  rw [h]
  exact ⟨rfl, rfl⟩

theorem step_pickup_text_reject (st : StateDoc) (jobs : List String)
    (uid : Int) (oid : String) (o : Order) (m : Msg) (h : pyTextStrip m = none) :
    (step_pickup_text st jobs uid oid o m).store = st ∧
    (step_pickup_text st jobs uid oid o m).jobs = jobs := by
  unfold step_pickup_text
  rw [h]
  exact ⟨rfl, rfl⟩

theorem step_drop_choice_reject (st : StateDoc) (jobs : List String)
    (uid : Int) (oid : String) (o : Order) (m : Msg)
    (hl : m.location = none) (ht : pyTextStrip m = none) :
    (step_drop_choice st jobs uid oid o m).store = st ∧
    (step_drop_choice st jobs uid oid o m).jobs = jobs := by
  unfold step_drop_choice
  rw [hl, ht]
  exact ⟨rfl, rfl⟩

theorem step_drop_text_reject (st : StateDoc) (jobs : List String)
    (uid : Int) (oid : String) (o : Order) (m : Msg) (h : pyTextStrip m = none) :
    (step_drop_text st jobs uid oid o m).store = st ∧
    (step_drop_text st jobs uid oid o m).jobs = jobs := by
  unfold step_drop_text
  rw [h]
  exact ⟨rfl, rfl⟩

theorem step_people_reject (st : StateDoc) (jobs : List String)
    (uid : Int) (oid : String) (o : Order) (m : Msg)
    (h : ∀ t, pyTextStrip m = some t → ¬(t = "1" ∨ t = "2" ∨ t = "3" ∨ t = "4" ∨ t = "5+")) :
    (step_people st jobs uid oid o m).store = st ∧
    (step_people st jobs uid oid o m).jobs = jobs := by
  unfold step_people
  split
  · rename_i t hts
    rw [if_neg (h t hts)]
    exact ⟨rfl, rfl⟩
  · exact ⟨rfl, rfl⟩

theorem step_when_reject (st : StateDoc) (jobs : List String)
    (uid : Int) (oid : String) (o : Order) (m : Msg)
    (h : ∀ t, pyTextStrip m = some t → ¬(t = "Hozir" ∨ t = "Vaqt yozaman")) :
    (step_when st jobs uid oid o m).store = st ∧
    (step_when st jobs uid oid o m).jobs = jobs := by
  unfold step_when
  split
  · rename_i t hts
    have hh := h t hts
    rw [if_neg (fun he => hh (Or.inl he)), if_neg (fun he => hh (Or.inr he))]
    exact ⟨rfl, rfl⟩
  · exact ⟨rfl, rfl⟩

theorem step_when_text_reject (st : StateDoc) (jobs : List String)
    (uid : Int) (oid : String) (o : Order) (m : Msg) (h : pyTextStrip m = none) :
    (step_when_text st jobs uid oid o m).store = st ∧
    (step_when_text st jobs uid oid o m).jobs = jobs := by
  unfold step_when_text
  rw [h]
  exact ⟨rfl, rfl⟩

theorem step_phone_reject (st : StateDoc) (jobs : List String)
    (uid : Int) (oid : String) (o : Order) (m : Msg)
    (hc : contactPhone m = none) (ht : pyTextStrip m = none) :
    (step_phone st jobs uid oid o m).store = st ∧
    (step_phone st jobs uid oid o m).jobs = jobs := by
  unfold step_phone
  rw [hc, ht]
  exact ⟨rfl, rfl⟩

theorem step_username_confirm_reject (st : StateDoc) (jobs : List String)
    (uid : Int) (oid : String) (o : Order) (m : Msg) (nm : Int) (okb : Bool)
    (h : pyTextStrip m = none) :
    (step_username_confirm st jobs uid oid o m nm okb).store = st ∧
    (step_username_confirm st jobs uid oid o m nm okb).jobs = jobs := by
  unfold step_username_confirm
  rw [h]
  exact ⟨rfl, rfl⟩

/-- C7 (confirmed): at every conversation step, an input that the step
does not accept (and that is not the distinguished cancel token) only
re-prompts: the document — the user's step and order id, and every
stored order — and the job queue are unchanged. -/
theorem c7_reject_no_change (st : StateDoc) (jobs : List String) (uid : Int)
    (m : Msg) (nm : Int) (okb : Bool) (oid : String) (o : Order)
    (hoid : get_user_order_id st uid = some oid) (hne : oid ≠ "")
    (ho : load_order st oid = some o)
    (hstep : get_user_step st uid ≠ "")
    (hcan : is_cancel_text m = false)
    (hacc : step_accepts (get_user_step st uid) m = false) :
    (private_router st jobs uid m nm okb).store = st ∧
    (private_router st jobs uid m nm okb).jobs = jobs := by
  have hse : pyEmpty (get_user_step st uid) = false := pyEmpty_false_of_ne hstep
  simp only [private_router, hoid, Option.getD_some, ho, hse, hcan, pyFalsyOpt,
    pyEmpty_false_of_ne hne, Bool.or_self, Bool.false_eq_true, if_false]
  split
  · rename_i h1
    rw [h1] at hacc
    have ha : m.location.isSome = false := hacc
    exact step_pickup_location_reject st jobs uid oid o m (isSome_false_eq_none ha)
  · split
    · rename_i h2
      rw [h2] at hacc
      have ha : (pyTextStrip m).isSome = false := hacc
      exact step_pickup_text_reject st jobs uid oid o m (isSome_false_eq_none ha)
    · split
      · rename_i h3
        rw [h3] at hacc
        have ha : (m.location.isSome || (pyTextStrip m).isSome) = false := hacc
        obtain ⟨ha1, ha2⟩ := Bool.or_eq_false_iff.1 ha
        exact step_drop_choice_reject st jobs uid oid o m
          (isSome_false_eq_none ha1) (isSome_false_eq_none ha2)
      · split
        · rename_i h4
          rw [h4] at hacc
          have ha : (pyTextStrip m).isSome = false := hacc
          exact step_drop_text_reject st jobs uid oid o m (isSome_false_eq_none ha)
        · split
          · rename_i h5
            rw [h5] at hacc
            have ha : (match pyTextStrip m with
                | some t => decide (t = "1" ∨ t = "2" ∨ t = "3" ∨ t = "4" ∨ t = "5+")
                | none => false) = false := hacc
            refine step_people_reject st jobs uid oid o m ?_
            intro t htv
            rw [htv] at ha
            exact of_decide_eq_false ha
          · split
            · rename_i h6
              rw [h6] at hacc
              have ha : (match pyTextStrip m with
                  | some t => decide (t = "Hozir" ∨ t = "Vaqt yozaman")
                  | none => false) = false := hacc
              refine step_when_reject st jobs uid oid o m ?_
              intro t htv
              rw [htv] at ha
              exact of_decide_eq_false ha
            · split
              · rename_i h7
                rw [h7] at hacc
                have ha : (pyTextStrip m).isSome = false := hacc
                exact step_when_text_reject st jobs uid oid o m (isSome_false_eq_none ha)
              · split
                · rename_i h8
                  rw [h8] at hacc
                  have ha : ((contactPhone m).isSome || (pyTextStrip m).isSome) = false := hacc
                  obtain ⟨ha1, ha2⟩ := Bool.or_eq_false_iff.1 ha
                  exact step_phone_reject st jobs uid oid o m
                    (isSome_false_eq_none ha1) (isSome_false_eq_none ha2)
                · split
                  · rename_i h9
                    rw [h9] at hacc
                    have ha : (pyTextStrip m).isSome = false := hacc
                    exact step_username_confirm_reject st jobs uid oid o m nm okb
                      (isSome_false_eq_none ha)
                  · exact ⟨rfl, rfl⟩

/-- C7 witness: at the `people` step, the free text `seven` is rejected
and changes nothing. -/
theorem c7_reject_witness :
    (private_router stConvPeople [] 7 { text := some "seven" } 0 true).store = stConvPeople ∧
    (private_router stConvPeople [] 7 { text := some "seven" } 0 true).jobs = [] :=
  c7_reject_no_change stConvPeople [] 7 { text := some "seven" } 0 true "1" oPending
    (by decide) (by decide) (by decide) (by decide) (by decide) (by decide)

end Taksichi
